import Mathlib

/-!
Verification of the Algoace backtesting subsystem against its specification.

The definitions below are a shallow embedding of the Python source:

* `src/backend/api/backtesting.py` — job submission (`run_backtest`),
  background execution (`simulate_backtest_execution`) with its single
  timeout check, the simplified fallback simulation loop, the per-bar
  progress computation, and the summary-metric formulas;
* `src/backend/crud_backtest.py` — `delete_backtest_result` and
  `delete_old_backtest_results` over the `BacktestResult` table;
* `src/backend/api/backtest_history.py` — `update_backtest_lock_status`.

Money and prices are embedded as rationals (the source uses Python floats;
none of the statements proved here depend on rounding), timestamps as
natural numbers (days since the start date), and the job table / result
table as association lists keyed by id.
-/

/-- Job lifecycle states, the string values stored in `backtest_jobs[job_id]["status"]`
(`"PENDING"`, `"RUNNING"`, `"COMPLETED"`, `"FAILED"`). -/
inductive JobStatus where
  | pending
  | running
  | completed
  | failed
deriving DecidableEq, Repr

/-- A status is terminal when no further transition is expected from it. -/
def JobStatus.isTerminal : JobStatus → Bool
  | .completed => true
  | .failed => true
  | _ => false

/-- Rank of a status along the forward order PENDING → RUNNING → terminal. -/
def statusRank : JobStatus → Nat
  | .pending => 0
  | .running => 1
  | .completed => 2
  | .failed => 2

/-- Pairwise check that a list of status writes only ever moves strictly
forward in `statusRank`. -/
def statusForwardOnly : List JobStatus → Bool
  | [] => true
  | [_] => true
  | a :: b :: rest => decide (statusRank a < statusRank b) && statusForwardOnly (b :: rest)

/-- The points of `simulate_backtest_execution` at which the Python code can
raise, sending the job to FAILED through the outer `except` handler
(backtesting.py lines 1092-1098): strategy import (line 533), dataset search
(line 553), dataset validation (line 576), data loading / empty filtered data
(lines 598-638), the single pre-loop timeout check (line 650), the
simulation itself (lines 813-906), and storing the result (lines 1068-1077). -/
inductive FailStage where
  | importStrategy
  | datasetSearch
  | noValidDataset
  | loadData
  | timeoutExceeded
  | runLoop
  | storeResult
deriving DecidableEq, Repr

/-- Status writes performed by the background task `simulate_backtest_execution`
on its job record, in program order: it always writes RUNNING first
(line 499); then COMPLETED on success (line 1080), or FAILED from the
outer exception handler (line 1096) if any stage raised.  `outcome` is
`none` for a successful run and `some s` when stage `s` raised. -/
def simulateExecutionStatusWrites (outcome : Option FailStage) : List JobStatus :=
  JobStatus.running ::
    (match outcome with
      | none => [JobStatus.completed]
      | some _ => [JobStatus.failed])

/-- All status writes a single job record ever receives: `run_backtest`
creates the record with status PENDING under a fresh uuid4 key
(lines 339-349), then the spawned task appends its writes.  No other code
writes a job status. -/
def jobStatusTrace (outcome : Option FailStage) : List JobStatus :=
  JobStatus.pending :: simulateExecutionStatusWrites outcome

/-- A trade row as stored in a `BacktestResult.trades` JSON list
(models/backtest.py; shape built by the fallback loop, backtesting.py
lines 844-853). -/
structure TradeRec where
  entryDay : Nat
  entryPrice : ℚ
  quantity : ℚ
  exitDay : Option Nat
  exitPrice : Option ℚ
  pnl : ℚ
deriving DecidableEq, Repr

/-- A row of the durable `backtestresult` table
(`class BacktestResult(SQLModel)` in `src/backend/models/backtest.py`).
The JSON payload columns are embedded structurally: `parameters` and
`summaryMetrics` as key/value association lists, `equityCurve` as
(timestamp, equity) pairs, `trades` as `TradeRec` rows. -/
structure BacktestResult where
  id : Nat
  strategyId : String
  timestamp : Nat
  parameters : List (String × String)
  summaryMetrics : List (String × ℚ)
  equityCurve : List (Nat × ℚ)
  trades : List TradeRec
  logOutput : String
  aiAnalysis : Option String
  locked : Bool
deriving DecidableEq, Repr

/-- `crud_backtest.delete_backtest_result` (crud_backtest.py lines 56-71):
look the row up by primary key; return `false` without touching the table
when it is missing or `locked`; otherwise delete the row and return `true`.
The table is the list of rows; `session.get` by primary key is `find?` on
the id. -/
def delete_backtest_result (store : List BacktestResult) (backtestId : Nat) :
    List BacktestResult × Bool :=
  match store.find? (fun r => r.id == backtestId) with
  | none => (store, false)
  | some r =>
      if r.locked then (store, false)
      else (store.filter (fun r => ! (r.id == backtestId)), true)

/-- Fixed sample rows used to instantiate theorems at concrete inputs. -/
def sampleResult (i : Nat) (ts : Nat) (lk : Bool) : BacktestResult :=
  { id := i, strategyId := "strat-9", timestamp := ts, parameters := [],
    summaryMetrics := [], equityCurve := [], trades := [],
    logOutput := "", aiAnalysis := none, locked := lk }

/-- `crud_backtest.delete_old_backtest_results` (crud_backtest.py lines
73-100).  `results` is what the SQL query returns: the rows of one strategy
ordered by timestamp descending (newest first).  When there are at most
`keepCount` rows nothing is deleted; otherwise the rows beyond the first
`keepCount` are deleted except that locked rows are skipped.  Returns the
surviving table (in the query order) and the number of deleted rows. -/
def delete_old_backtest_results (results : List BacktestResult) (keepCount : Nat) :
    List BacktestResult × Nat :=
  if results.length ≤ keepCount then (results, 0)
  else
    let resultsToDelete := results.drop keepCount
    (results.take keepCount ++ resultsToDelete.filter (fun r => r.locked),
      (resultsToDelete.filter (fun r => ! r.locked)).length)

/-- `update_backtest_lock_status` (backtest_history.py lines 236-266): look
the row up by id (404 when missing), read the `locked` key of the request
body — `lock_data.get("locked", False)` defaults to `False` when the key is
absent — and store that value on the row.  `lockKey` is the value of the
body's `"locked"` key when present. -/
def update_backtest_lock_status (store : List BacktestResult) (backtestId : Nat)
    (lockKey : Option Bool) : Except String (List BacktestResult) :=
  match store.find? (fun r => r.id == backtestId) with
  | none => .error "Backtest result not found"
  | some _ =>
      .ok (store.map (fun x =>
        if x.id == backtestId then { x with locked := lockKey.getD false } else x))

/-- The two per-dataset facts the submission path derives for each catalog
entry returned by `search_datasets(symbol, timeframe)`: whether
`validate_dataset_file` reported `valid` (a filesystem check, embedded as an
oracle bit), and the `lumibot_compatible` metadata flag read by
`dataset.dataset_metadata.get("lumibot_compatible", False)`. -/
structure DatasetCheck where
  valid : Bool
  lumibotCompatible : Bool
deriving DecidableEq, Repr

/-- The dataset-validation stage of `run_backtest` (backtesting.py lines
285-356), after the strategy id has been resolved.  `datasets` are the
catalog entries found for the requested (symbol, timeframe); `jobs` is the
in-memory `backtest_jobs` table and `newJobId` the fresh uuid the handler
would mint.  With zero valid datasets it raises HTTP 400 (the spec's
ValidationError) before any job id is generated, leaving the table
untouched; otherwise it registers the job as PENDING and returns the job id
together with the no-compatible-dataset warning flag (line 334-337: the
`any` ranges over all found datasets). -/
def run_backtest_submit (datasets : List DatasetCheck)
    (jobs : List (String × JobStatus)) (newJobId : String) :
    (List (String × JobStatus)) × Except String (String × Bool) :=
  let validDatasets := datasets.filter (fun d => d.valid)
  if validDatasets.isEmpty then
    (jobs,
      .error (if datasets.isEmpty then
        "No dataset available. Please download the data first."
      else
        "No valid dataset available. Datasets were found but failed validation."))
  else
    ((newJobId, JobStatus.pending) :: jobs,
      .ok (newJobId, ! datasets.any (fun d => d.lumibotCompatible)))

/-- `true` iff an `Except` value is `ok`. -/
def exceptIsOk : Except String (String × Bool) → Bool
  | .ok _ => true
  | .error _ => false

/-- Profit factor as the source represents it: a Python float that is either
a finite number or the `float("inf")` produced at backtesting.py lines
960/986. -/
inductive ProfitFactor where
  | val (q : ℚ)
  | posInf
deriving DecidableEq, Repr

/-- Gross profit: `sum(t.pnl for t in winning_trades)` with winners selected
by `pnl > 0` (backtesting.py lines 979, 984). -/
def grossProfit (pnls : List ℚ) : ℚ :=
  (pnls.filter (fun p => 0 < p)).sum

/-- Gross loss magnitude: `abs(sum(t.pnl for t in losing_trades))` with
losers selected by `pnl < 0` (backtesting.py lines 980, 985). -/
def grossLoss (pnls : List ℚ) : ℚ :=
  |(pnls.filter (fun p => p < 0)).sum|

/-- The profit-factor computation of the summary stage (backtesting.py lines
977-992): with no trades at all the else-branch at line 991 stores `0`;
with trades, `total_profit / total_loss if total_loss > 0 else float("inf")`
(line 986). -/
def profit_factor (pnls : List ℚ) : ProfitFactor :=
  if pnls = [] then .val 0
  else if 0 < grossLoss pnls then .val (grossProfit pnls / grossLoss pnls)
  else .posInf

/-- Win rate (backtesting.py line 982): winners over total, `0` with no
trades (line 990). -/
def winRate (pnls : List ℚ) : ℚ :=
  if pnls = [] then 0
  else ((pnls.filter (fun p => 0 < p)).length : ℚ) / (pnls.length : ℚ)

/-- Average trade pnl (backtesting.py line 988): total pnl over trade count,
`0` with no trades (line 992). -/
def avgTradePnl (pnls : List ℚ) : ℚ :=
  if pnls = [] then 0
  else pnls.sum / (pnls.length : ℚ)

/-- Sum of all trade pnls, the right-hand side of the spec equation
`netProfit(trades) == sum(t.pnl for t in trades)`. -/
def sumPnl (pnls : List ℚ) : ℚ := pnls.sum

/-- Net profit computed by the summary stage (backtesting.py lines 913-946):
when the portfolio history is a usable equity series, `net_profit =
final_equity - initial_equity` over that series (lines 915-917); when the
history is not in the expected format the code substitutes the default
values `initial_equity = initial_capital`, `final_equity =
initial_capital * 1.05` (lines 938-943), independent of the trade list.
`equityHistory` is `none` in the latter case. -/
def computeNetProfit (equityHistory : Option (List ℚ)) (initialCapital : ℚ) : ℚ :=
  match equityHistory with
  | some h => h.getLast?.getD initialCapital - h.head?.getD initialCapital
  | none => initialCapital * (105 / 100) - initialCapital

/-- The progress value the loop writes at bar `i` of `nBars`
(backtesting.py line 816): `int(((i + 1) / len(dates)) * 70) + 20`.
Python computes the fraction in floating point and truncates with `int()`;
for a nonnegative value this is the floor, which Nat division gives
exactly here. -/
def progressAtBar (i nBars : Nat) : Nat :=
  (i + 1) * 70 / nBars + 20

/-- One OHLCV bar of the filtered dataset: its timestamp as days since the
start date, and its close (the only column the simplified loop reads,
lines 825/830/880). -/
structure Bar where
  day : Nat
  close : ℚ
deriving DecidableEq, Repr

/-- `portfolio["positions"][symbol]` (lines 836-840). -/
structure OpenPosition where
  quantity : ℚ
  entryPrice : ℚ
  entryDay : Nat
deriving DecidableEq, Repr

/-- The mutable locals of the simplified loop: `portfolio["cash"]`, the
single-symbol `portfolio["positions"]`, `trades_list` (most recent trade
first here; Python appends and scans with `reversed`), and the `current_rsi`
local, which is `none` for as long as the Python name is still unassigned. -/
structure SimState where
  cash : ℚ
  pos : Option OpenPosition
  trades : List TradeRec
  currentRsi : Option ℚ
deriving Repr

/-- The message of the `NameError` Python raises at line 833 when
`current_rsi` is read before any iteration with `i >= 14` assigned it. -/
def nameErrorMsg : String := "NameError: name current_rsi is not defined"

/-- The `NameError` for `date` at lines 880/885 when the loop ran zero
iterations (unreachable behind the `len(data) < 1` check at line 635). -/
def nameErrorDateMsg : String := "NameError: name date is not defined"

/-- Lines 870-875: walk `reversed(trades_list)` and close the first trade
still open (fill exit day, exit price and pnl).  `trades` is already stored
most-recent-first. -/
def closeFirstOpen (trades : List TradeRec) (d : Nat) (price pnl : ℚ) :
    List TradeRec :=
  match trades with
  | [] => []
  | t :: ts =>
      if t.exitDay = none then
        { t with exitDay := some d, exitPrice := some price, pnl := pnl } :: ts
      else t :: closeFirstOpen ts d price pnl

/-- One iteration of the simplified loop (backtesting.py lines 820-875),
minus the progress write which `runBars` records.  `rsiFn prices` stands
for `strategy_instance.calculate_rsi(prices, 14)[-1]`, an oracle for the
dynamically loaded strategy module; `closes` is the close column of the
whole filtered dataset, of which the code passes the prefix up to bar `i`.
Reading `currentRsi` while it is `none` is the `NameError` of a read of an
unassigned Python local. -/
def stepBar (rsiFn : List ℚ → ℚ) (closes : List ℚ) (i : Nat) (bar : Bar)
    (st : SimState) : Except String SimState :=
  let st := if 14 ≤ i then
      { st with currentRsi := some (rsiFn (closes.take (i + 1))) }
    else st
  match st.currentRsi with
  | none => .error nameErrorMsg
  | some currentRsi =>
      let price := bar.close
      match st.pos with
      | none =>
          if currentRsi < 30 then
            let qty := st.cash / price
            .ok { st with
              pos := some { quantity := qty, entryPrice := price, entryDay := bar.day },
              cash := st.cash - qty * price,
              trades := { entryDay := bar.day, entryPrice := price, quantity := qty,
                          exitDay := none, exitPrice := none, pnl := 0 } :: st.trades }
          else .ok st
      | some p =>
          if 70 < currentRsi then
            let pnl := (price - p.entryPrice) * p.quantity
            .ok { st with
              cash := st.cash + p.quantity * price,
              pos := none,
              trades := closeFirstOpen st.trades bar.day price pnl }
          else .ok st

/-- The `for i, date in enumerate(dates)` loop (lines 814-875).  Each
iteration first writes (progress, current date) into the job record
(lines 815-818) and then runs `stepBar`; an exception stops the loop.
Returns the progress writes that happened and the final state or error. -/
def runBars (rsiFn : List ℚ → ℚ) (closes : List ℚ) (nBars : Nat) :
    Nat → List Bar → SimState → List (Nat × Nat) × Except String SimState
  | _, [], st => ([], .ok st)
  | i, bar :: rest, st =>
      let write := (progressAtBar i nBars, bar.day)
      match stepBar rsiFn closes i bar st with
      | .error e => ([write], .error e)
      | .ok st1 =>
          let next := runBars rsiFn closes nBars (i + 1) rest st1
          (write :: next.1, next.2)

/-- The whole simplified fallback simulation (backtesting.py lines 790-887):
start from cash = initialCapital, no position, no trades, `current_rsi`
unassigned; record the initial equity point at the start date (lines
808-811); run the loop; then compute final equity as cash plus open
positions marked at the last bar's close and append the single final equity
point (lines 877-887).  Returns the loop's progress writes together with
the produced (trades, equity curve) or the propagated exception. -/
def fallbackSimulate (rsiFn : List ℚ → ℚ) (startDay : Nat) (bars : List Bar)
    (initialCapital : ℚ) :
    List (Nat × Nat) × Except String (List TradeRec × List (Nat × ℚ)) :=
  let closes := bars.map (fun b => b.close)
  let st0 : SimState :=
    { cash := initialCapital, pos := none, trades := [], currentRsi := none }
  let run := runBars rsiFn closes bars.length 0 bars st0
  match run.2 with
  | .error e => (run.1, .error e)
  | .ok st =>
      match bars.getLast? with
      | none => (run.1, .error nameErrorDateMsg)
      | some lastBar =>
          let equity := st.cash +
            (match st.pos with
             | none => 0
             | some p => p.quantity * lastBar.close)
          (run.1,
            .ok (st.trades.reverse,
              [(startDay, initialCapital), (lastBar.day, equity)]))

/-- The wall-clock quantities of one execution of
`simulate_backtest_execution`: the configured timeout, the elapsed seconds
at the single pre-loop check of line 649, and the elapsed seconds while
each bar is being processed.  `barElapsed` exists so that statements can
talk about time passing during the loop; the source never reads the clock
inside the loop, which is why no definition below consults it. -/
structure ExecTiming where
  timeout : Nat
  preCheckElapsed : Nat
  barElapsed : Nat → Nat

/-- The message of the exception raised by the pre-loop timeout check
(line 650). -/
def timeoutMessage (t : Nat) : String :=
  "Backtest execution timed out after " ++ toString t ++ " seconds"

/-- The execution path from the timeout check onwards (lines 648-650 and
790-1098): if elapsed wall-clock time exceeds the timeout at the single
check before the loop, the raise propagates to the outer handler and the
job ends FAILED with the timeout message; otherwise the simplified loop
runs, any exception from it also lands the job in FAILED with that message,
and a normal return marks the job COMPLETED (line 1080-1081). -/
def simulateBacktestRun (timing : ExecTiming) (rsiFn : List ℚ → ℚ)
    (startDay : Nat) (bars : List Bar) (initialCapital : ℚ) :
    JobStatus × String :=
  if timing.timeout < timing.preCheckElapsed then
    (JobStatus.failed, timeoutMessage timing.timeout)
  else
    match (fallbackSimulate rsiFn startDay bars initialCapital).2 with
    | .error e => (JobStatus.failed, e)
    | .ok _ => (JobStatus.completed, "Backtest completed successfully")

/-- A run whose pre-loop check sees no elapsed time but whose loop runs
past the 300s timeout from the first bar on. -/
def overtimeTiming : ExecTiming :=
  { timeout := 300, preCheckElapsed := 0, barElapsed := fun _ => 301 }

/-- Modelled from the spec: the formula C9 claims for the reported
progress, `elapsedSimulatedDays / totalDays * 100`. -/
def specProgressFormula (elapsedDays totalDays : Nat) : ℚ :=
  (elapsedDays : ℚ) / (totalDays : ℚ) * 100

/-- A base timing with the default 300s timeout and no elapsed time,
varied by the witnesses below. -/
def precheckOvertime : ExecTiming :=
  { timeout := 300, preCheckElapsed := 0, barElapsed := fun _ => 0 }

/-- C1: In every possible execution of the submission path plus background
task, the sequence of status writes to a job record moves strictly forward
along PENDING → RUNNING → terminal, and a terminal status (COMPLETED or
FAILED) is only ever the final write — so no write changes a job away from
a terminal status, and nothing updates a job after a terminal state. -/
theorem job_status_transitions_forward_only (outcome : Option FailStage) :
    statusForwardOnly (jobStatusTrace outcome) = true ∧
      (jobStatusTrace outcome).dropLast.all (fun s => ! s.isTerminal) = true := by
  cases outcome with
  | none => exact ⟨rfl, rfl⟩
  | some s => exact ⟨rfl, rfl⟩

/-- C2: deleting a locked result returns `false` and leaves the whole table —
hence every field of the stored record — unchanged; deleting an existing
unlocked result returns `true`, removes every row with that id, and keeps
all other rows. -/
theorem delete_locked_noop_unlocked_removes (store : List BacktestResult)
    (backtestId : Nat) (r : BacktestResult)
    (hfind : store.find? (fun x => x.id == backtestId) = some r) :
    (r.locked = true → delete_backtest_result store backtestId = (store, false)) ∧
    (r.locked = false →
      (delete_backtest_result store backtestId).2 = true ∧
      (∀ x ∈ (delete_backtest_result store backtestId).1, x.id ≠ backtestId) ∧
      (∀ x ∈ store, x.id ≠ backtestId →
        x ∈ (delete_backtest_result store backtestId).1)) := by
  constructor
  · intro hlock
    simp [delete_backtest_result, hfind, hlock]
  · intro hlock
    refine ⟨?_, ?_, ?_⟩
    · simp [delete_backtest_result, hfind, hlock]
    · intro x hx
      simp only [delete_backtest_result, hfind, hlock, if_false, Bool.false_eq_true,
        ite_false] at hx
      have := (List.mem_filter.mp hx).2
      simpa using this
    · intro x hx hne
      simp only [delete_backtest_result, hfind, hlock, if_false, Bool.false_eq_true,
        ite_false]
      exact List.mem_filter.mpr ⟨hx, by simpa using hne⟩

/-- Witness for C2 at a concrete two-row table: deleting locked row 1 is a
no-op returning `false`; deleting unlocked row 2 returns `true`. -/
theorem delete_locked_noop_unlocked_removes_witness :
    (delete_backtest_result [sampleResult 1 10 true, sampleResult 2 9 false] 1 =
      ([sampleResult 1 10 true, sampleResult 2 9 false], false)) ∧
    (delete_backtest_result [sampleResult 1 10 true, sampleResult 2 9 false] 2).2 = true := by
  refine ⟨?_, ?_⟩
  · exact (delete_locked_noop_unlocked_removes
      [sampleResult 1 10 true, sampleResult 2 9 false] 1
      (sampleResult 1 10 true) (by decide)).1 rfl
  · exact ((delete_locked_noop_unlocked_removes
      [sampleResult 1 10 true, sampleResult 2 9 false] 2
      (sampleResult 2 9 false) (by decide)).2 rfl).1

/-- C4: pruning with `keepCount = 5` never removes a locked row — every
locked row present before the call survives it — and afterwards the number
of unlocked rows for the strategy is at most 5. -/
theorem prune_keeps_locked_and_bounds_unlocked (results : List BacktestResult)
    (r : BacktestResult) (hmem : r ∈ results) (hlock : r.locked = true) :
    r ∈ (delete_old_backtest_results results 5).1 ∧
      ((delete_old_backtest_results results 5).1.filter
        (fun x => ! x.locked)).length ≤ 5 := by
  unfold delete_old_backtest_results
  by_cases hlen : results.length ≤ 5
  · simp only [hlen, if_true]
    exact ⟨hmem, le_trans (List.length_filter_le _ _) hlen⟩
  · simp only [hlen, if_false]
    constructor
    · rcases List.mem_append.mp ((List.take_append_drop 5 results) ▸ hmem) with h | h
      · exact List.mem_append.mpr (Or.inl h)
      · exact List.mem_append.mpr (Or.inr (List.mem_filter.mpr ⟨h, hlock⟩))
    · rw [List.filter_append]
      have hdrop : ((results.drop 5).filter (fun r => r.locked)).filter
          (fun x => ! x.locked) = [] := by
        apply List.filter_eq_nil_iff.mpr
        intro a ha
        have := (List.mem_filter.mp ha).2
        simp [this]
      rw [hdrop, List.append_nil]
      calc ((results.take 5).filter (fun x => ! x.locked)).length
          ≤ (results.take 5).length := List.length_filter_le _ _
        _ ≤ 5 := by simp [List.length_take]

/-- Witness for C4: a seven-row table (newest first) whose oldest locked row
survives pruning, with at most five unlocked rows afterwards. -/
theorem prune_keeps_locked_and_bounds_unlocked_witness :
    sampleResult 7 1 true ∈
      (delete_old_backtest_results
        [sampleResult 1 7 false, sampleResult 2 6 false, sampleResult 3 5 false,
         sampleResult 4 4 false, sampleResult 5 3 false, sampleResult 6 2 false,
         sampleResult 7 1 true] 5).1 ∧
    ((delete_old_backtest_results
        [sampleResult 1 7 false, sampleResult 2 6 false, sampleResult 3 5 false,
         sampleResult 4 4 false, sampleResult 5 3 false, sampleResult 6 2 false,
         sampleResult 7 1 true] 5).1.filter (fun x => ! x.locked)).length ≤ 5 :=
  prune_keeps_locked_and_bounds_unlocked _ _ (by decide) rfl

/-- C10: a lock-toggle request whose body has no `locked` key sets the
record's `locked` field to `false`: on an existing locked result the call
succeeds and the result is unlocked afterwards (it is not left unchanged). -/
theorem lock_toggle_missing_key_unlocks (store : List BacktestResult)
    (backtestId : Nat) (r : BacktestResult)
    (hfind : store.find? (fun x => x.id == backtestId) = some r)
    (_hlock : r.locked = true) :
    ∃ updated, update_backtest_lock_status store backtestId none = .ok updated ∧
      (∀ x ∈ updated, x.id = backtestId → x.locked = false) ∧
      ∃ x ∈ updated, x.id = backtestId := by
  refine ⟨store.map (fun x =>
    if x.id == backtestId then { x with locked := false } else x), ?_, ?_, ?_⟩
  · simp [update_backtest_lock_status, hfind, Option.getD]
  · intro x hx hid
    rcases List.mem_map.mp hx with ⟨y, _, hy⟩
    by_cases hyid : (y.id == backtestId) = true
    · rw [if_pos hyid] at hy
      rw [← hy]
    · rw [if_neg hyid] at hy
      rw [← hy] at hid
      exact absurd (by simpa using hid) hyid
  · have hrmem : r ∈ store := List.mem_of_find?_eq_some hfind
    have hrid : (r.id == backtestId) = true := by
      have := List.find?_some hfind
      simpa using this
    refine ⟨{ r with locked := false }, ?_, by simpa using hrid⟩
    refine List.mem_map.mpr ⟨r, hrmem, ?_⟩
    rw [if_pos hrid]

/-- Witness for C10: a concrete locked row updated with an empty request
body comes back with `locked = false`. -/
theorem lock_toggle_missing_key_unlocks_witness :
    ∃ updated, update_backtest_lock_status [sampleResult 3 4 true] 3 none = .ok updated ∧
      (∀ x ∈ updated, x.id = 3 → x.locked = false) ∧
      ∃ x ∈ updated, x.id = 3 :=
  lock_toggle_missing_key_unlocks [sampleResult 3 4 true] 3 (sampleResult 3 4 true)
    (by decide) rfl

/-- C3: when zero datasets pass validation, submission fails (no job id is
returned) and the job table is unchanged, so no job is ever created for the
request; when at least one dataset validates but no found dataset carries
the engine-compatibility flag, submission succeeds and returns the job id
with the warning flag set, rather than failing. -/
theorem submit_rejects_without_valid_dataset (datasets : List DatasetCheck)
    (jobs : List (String × JobStatus)) (newJobId : String) :
    (datasets.filter (fun d => d.valid) = [] →
      (run_backtest_submit datasets jobs newJobId).1 = jobs ∧
      exceptIsOk (run_backtest_submit datasets jobs newJobId).2 = false) ∧
    ((datasets.filter (fun d => d.valid) ≠ [] ∧
        datasets.all (fun d => ! d.lumibotCompatible) = true) →
      (run_backtest_submit datasets jobs newJobId).2 = .ok (newJobId, true)) := by
  constructor
  · intro hval
    simp [run_backtest_submit, hval, exceptIsOk]
  · rintro ⟨hval, hcompat⟩
    have hne : (datasets.filter (fun d => d.valid)).isEmpty = false := by
      cases hfe : (datasets.filter (fun d => d.valid)).isEmpty
      · rfl
      · exact absurd (List.isEmpty_iff.mp hfe) hval
    have hany : datasets.any (fun d => d.lumibotCompatible) = false := by
      rw [List.any_eq_false]
      intro d hd
      have := List.all_eq_true.mp hcompat d hd
      simpa using this
    simp [run_backtest_submit, hne, hany]

/-- Witness for C3: a request finding one invalid dataset is rejected with
the table unchanged; a request finding one valid but engine-incompatible
dataset yields a job with the warning flag. -/
theorem submit_rejects_without_valid_dataset_witness :
    ((run_backtest_submit [⟨false, true⟩] [] "job-1").1 = [] ∧
      exceptIsOk (run_backtest_submit [⟨false, true⟩] [] "job-1").2 = false) ∧
    (run_backtest_submit [⟨true, false⟩] [] "job-1").2 = .ok ("job-1", true) :=
  ⟨(submit_rejects_without_valid_dataset [⟨false, true⟩] [] "job-1").1 (by decide),
   (submit_rejects_without_valid_dataset [⟨true, false⟩] [] "job-1").2
     ⟨by decide, by decide⟩⟩

/-- C6 counterexample: for a run with one winning trade and zero gross loss,
the claim says profitFactor is a finite sentinel, but the code stores
`float("inf")`: the computed profit factor is `posInf` and equals no finite
value. -/
theorem profit_factor_zero_loss_not_finite :
    profit_factor [(100 : ℚ)] = ProfitFactor.posInf ∧
      ∀ q : ℚ, profit_factor [(100 : ℚ)] ≠ ProfitFactor.val q := by
  have hpf : profit_factor [(100 : ℚ)] = ProfitFactor.posInf := by
    rw [profit_factor, if_neg (by simp), if_neg (by norm_num [grossLoss])]
  refine ⟨hpf, fun q h => ?_⟩
  rw [hpf] at h
  exact ProfitFactor.noConfusion h

/-- C6 amended: the computation never raises — with no trades it stores the
finite value 0, with trades and zero gross loss it stores positive infinity
(a non-finite sentinel), and whenever gross loss is positive it stores the
finite value grossProfit / |grossLoss|. -/
theorem profit_factor_cases (pnls : List ℚ) :
    (pnls = [] → profit_factor pnls = .val 0) ∧
    (pnls ≠ [] → grossLoss pnls = 0 → profit_factor pnls = .posInf) ∧
    (pnls ≠ [] → 0 < grossLoss pnls →
      profit_factor pnls = .val (grossProfit pnls / grossLoss pnls)) := by
  refine ⟨fun h => by simp [profit_factor, h], fun hne hz => ?_, fun hne hpos => ?_⟩
  · simp [profit_factor, hne, hz]
  · simp [profit_factor, hne, hpos]

/-- Witness for C6 amended at concrete trade lists: empty gives 0, a lone
winner gives posInf, and pnls 100, -40, 60 give 160/40 = 4. -/
theorem profit_factor_cases_witness :
    profit_factor [] = .val 0 ∧
      profit_factor [(100 : ℚ)] = .posInf ∧
      profit_factor [(100 : ℚ), -40, 60] = .val (grossProfit [(100 : ℚ), -40, 60] /
        grossLoss [(100 : ℚ), -40, 60]) :=
  ⟨(profit_factor_cases []).1 rfl,
   (profit_factor_cases [(100 : ℚ)]).2.1 (by simp) (by norm_num [grossLoss]),
   (profit_factor_cases [(100 : ℚ), -40, 60]).2.2 (by simp) (by norm_num [grossLoss])⟩

/-- C7 counterexample: with the portfolio history not in the expected format
and an empty trade list — a case the summary stage explicitly handles with
default values — netProfit is 10000 * 1.05 - 10000 = 500 while the pnl sum
is 0, so netProfit does not equal the sum of trade pnls for every run. -/
theorem net_profit_not_sum_of_pnl :
    computeNetProfit none 10000 = 500 ∧ sumPnl [] = 0 ∧ (500 : ℚ) ≠ 0 := by
  refine ⟨by norm_num [computeNetProfit], rfl, by norm_num⟩

/-- C7 amended: netProfit is finalEquity - initialEquity of the equity
history and is computed independently of the trades (with the
default-values branch it is 5% of the initial capital even for an empty
trade set); the trade-derived example metrics do hold: pnls 100, -40, 60
give winRate 2/3, profitFactor 4, avgTradePnl 40 and pnl sum 120. -/
theorem net_profit_from_history_and_example_metrics (h : List ℚ)
    (cap : ℚ) (hne : h ≠ []) :
    computeNetProfit (some h) cap = h.getLast hne - h.head hne ∧
    computeNetProfit none cap = cap * (105 / 100) - cap ∧
    winRate [(100 : ℚ), -40, 60] = 2 / 3 ∧
    profit_factor [(100 : ℚ), -40, 60] = .val 4 ∧
    avgTradePnl [(100 : ℚ), -40, 60] = 40 ∧
    sumPnl [(100 : ℚ), -40, 60] = 120 := by
  refine ⟨?_, rfl, ?_, ?_, ?_, by norm_num [sumPnl]⟩
  · simp [computeNetProfit, List.getLast?_eq_getLast _ hne, List.head?_eq_head hne]
  · rw [winRate, if_neg (by simp)]
    norm_num
  · rw [profit_factor, if_neg (by simp), if_pos (by norm_num [grossLoss])]
    have hgp : grossProfit [(100 : ℚ), -40, 60] = 160 := by norm_num [grossProfit]
    have hgl : grossLoss [(100 : ℚ), -40, 60] = 40 := by norm_num [grossLoss]
    rw [hgp, hgl]
    norm_num
  · rw [avgTradePnl, if_neg (by simp)]
    norm_num

/-- Witness for C7 amended at a concrete equity history. -/
theorem net_profit_from_history_and_example_metrics_witness :
    computeNetProfit (some [(1000 : ℚ), 1100, 1120]) 1000 =
        List.getLast [(1000 : ℚ), 1100, 1120] (by decide) -
          List.head [(1000 : ℚ), 1100, 1120] (by decide) ∧
      winRate [(100 : ℚ), -40, 60] = 2 / 3 :=
  ⟨(net_profit_from_history_and_example_metrics [(1000 : ℚ), 1100, 1120] 1000
      (by decide)).1,
   (net_profit_from_history_and_example_metrics [(1000 : ℚ), 1100, 1120] 1000
      (by decide)).2.2.1⟩

/-- C8 (code bug): every run of the fallback simulation with at least one
bar aborts on the very first bar — `current_rsi` is read at line 833 while
still unassigned (it is only assigned from bar 14 on), a `NameError` — so
the run produces no equity curve at all, let alone one EquityPoint per bar;
the only write that happens is bar 0's progress update.  (Independently,
the equity-point append at lines 884-887 sits outside the loop body, so
even without the error the curve would get one initial and one final point,
not one per bar.) -/
theorem fallback_loop_crashes_on_first_bar (rsiFn : List ℚ → ℚ)
    (startDay : Nat) (bar : Bar) (rest : List Bar) (initialCapital : ℚ) :
    fallbackSimulate rsiFn startDay (bar :: rest) initialCapital =
      ([(progressAtBar 0 (rest.length + 1), bar.day)], .error nameErrorMsg) := by
  rfl

/-- C5 counterexample: in the concrete run `overtimeTiming`, elapsed
wall-clock time already exceeds the timeout while bar 0 is processed, yet
the job does not abort with a timeout message: it fails with the loop's
NameError, because the loop never checks the clock. -/
theorem timeout_not_checked_at_bars_counterexample :
    overtimeTiming.timeout < overtimeTiming.barElapsed 0 ∧
    simulateBacktestRun overtimeTiming (fun _ => 50) 0
        [{ day := 1, close := 100 }] 10000 = (JobStatus.failed, nameErrorMsg) ∧
    nameErrorMsg ≠ timeoutMessage overtimeTiming.timeout := by
  refine ⟨by decide, rfl, by decide⟩

/-- C5 amended: the timeout (default 300s) is enforced by one cooperative
check performed after data loading and before the simulation loop: when
elapsed wall-clock time exceeds the timeout there, the run aborts and the
job ends FAILED with the timeout message.  The loop itself never re-checks
the clock: the outcome of a run is unchanged under arbitrary changes to
the elapsed time observed during bar processing. -/
theorem timeout_checked_once_before_loop (timing timing2 : ExecTiming)
    (rsiFn : List ℚ → ℚ) (startDay : Nat) (bars : List Bar) (cap : ℚ) :
    (timing.timeout < timing.preCheckElapsed →
      simulateBacktestRun timing rsiFn startDay bars cap =
        (JobStatus.failed, timeoutMessage timing.timeout)) ∧
    (timing2.timeout = timing.timeout →
      timing2.preCheckElapsed = timing.preCheckElapsed →
      simulateBacktestRun timing2 rsiFn startDay bars cap =
        simulateBacktestRun timing rsiFn startDay bars cap) := by
  constructor
  · intro h
    simp [simulateBacktestRun, h]
  · intro h1 h2
    simp [simulateBacktestRun, h1, h2]

/-- Witness for C5 amended: with 301s elapsed at the pre-loop check against
a 300s timeout, the job fails with the timeout message; and a run's outcome
ignores `barElapsed`. -/
theorem timeout_checked_once_before_loop_witness :
    simulateBacktestRun { precheckOvertime with preCheckElapsed := 301 }
        (fun _ => 50) 0 [{ day := 1, close := 100 }] 10000 =
      (JobStatus.failed, timeoutMessage 300) ∧
    simulateBacktestRun precheckOvertime (fun _ => 50) 0
        [{ day := 1, close := 100 }] 10000 =
      simulateBacktestRun overtimeTiming (fun _ => 50) 0
        [{ day := 1, close := 100 }] 10000 :=
  ⟨(timeout_checked_once_before_loop
      { precheckOvertime with preCheckElapsed := 301 }
      { precheckOvertime with preCheckElapsed := 301 }
      (fun _ => 50) 0 [{ day := 1, close := 100 }] 10000).1 (by decide),
   (timeout_checked_once_before_loop overtimeTiming precheckOvertime
      (fun _ => 50) 0 [{ day := 1, close := 100 }] 10000).2 rfl rfl⟩

/-- C9 counterexample: a two-bar run over a two-day range with its first
bar one day in.  The loop reports progress 55 at that bar
(`int((1/2)*70)+20`), but elapsedSimulatedDays / totalDays * 100 would be
50, so the reported progress is not the simulated-days percentage. -/
theorem progress_not_days_percentage_counterexample :
    (fallbackSimulate (fun _ => 50) 0
        [{ day := 1, close := 100 }, { day := 2, close := 101 }] 10000).1 =
      [(55, 1)] ∧
    specProgressFormula 1 2 = 50 ∧ (55 : ℚ) ≠ 50 := by
  refine ⟨rfl, by norm_num [specProgressFormula], by norm_num⟩

/-- C9 amended: the progress the loop reports at bar `i` of `n` is the
bar-count fraction scaled onto a 20-90 range, `int(((i+1)/n)*70)+20` — it
always lies between 20 and 90, and reaches exactly 90 (not 100) at the
final bar. -/
theorem progress_is_bar_fraction_on_20_90_scale (i n : Nat) (hn : 0 < n)
    (hi : i < n) :
    20 ≤ progressAtBar i n ∧ progressAtBar i n ≤ 90 ∧
      progressAtBar (n - 1) n = 90 := by
  refine ⟨Nat.le_add_left 20 _, ?_, ?_⟩
  · have h1 : (i + 1) * 70 ≤ n * 70 := Nat.mul_le_mul_right 70 hi
    have h2 : (i + 1) * 70 / n ≤ n * 70 / n := Nat.div_le_div_right h1
    have h3 : n * 70 / n = 70 := Nat.mul_div_cancel_left 70 hn
    have : (i + 1) * 70 / n ≤ 70 := le_trans h2 (le_of_eq h3)
    unfold progressAtBar
    omega
  · unfold progressAtBar
    have hn1 : n - 1 + 1 = n := by omega
    rw [hn1, Nat.mul_div_cancel_left 70 hn]

/-- Witness for C9 amended: a single-bar run reports progress 90 at its
only (and final) bar. -/
theorem progress_is_bar_fraction_on_20_90_scale_witness :
    20 ≤ progressAtBar 0 1 ∧ progressAtBar 0 1 ≤ 90 ∧
      progressAtBar (1 - 1) 1 = 90 :=
  progress_is_bar_fraction_on_20_90_scale 0 1 (by decide) (by decide)
